import Mathlib

/-!
# AssetBrowserThumbnailViewProxyModel

A shallow embedding of
`Code/Framework/AzToolsFramework/AzToolsFramework/AssetBrowser/AssetBrowserThumbnailViewProxyModel.cpp`.

The proxy model's `data` is a pure dispatch on the requested role; everything it
asks of the rest of the editor (the request buses, the path helpers of
AzFramework, the Qt model underneath) is gathered in the record `Services`,
so that every theorem quantifies over all possible answers of those
collaborators.  Strings are Lean strings.  The candidate path of a provider is
an `AZStd::string` that line 81 tests by size and line 89 reads through
`c_str()`: `c_str` gives the C string the code goes on with, the text before the
first NUL.  The path helpers and buses are called with C strings and their
results are read back as C strings, so the fields of `Services` stand for the
functions between those C strings.  Besides its value, `data` reports the
list of bus requests it broadcast and whether it delegated to the base class,
in the order in which the code performs them.
-/

namespace AzToolsFramework
namespace AssetBrowser

/-- The enumeration `AssetBrowserEntry::AssetEntryType`.  The code compares an
entry type with `Folder` only; the other enumerators are the non-folder kinds. -/
inductive AssetEntryType
  | Root
  | Folder
  | Source
  | Product
  deriving DecidableEq, Repr

/-- The enumeration `Thumbnail::State`; the code names `Failed` only. -/
inductive ThumbnailState
  | Unloaded
  | Loading
  | Ready
  | Failed
  deriving DecidableEq, Repr

/-- A rendered image, `QPixmap`; only its identity matters here. -/
structure QPixmap where
  id : Nat
  deriving DecidableEq, Repr

/-- The object behind a `SharedThumbnail`: what `GetState()` and `GetPixmap()` return. -/
structure Thumbnail where
  state : ThumbnailState
  pixmap : QPixmap
  deriving DecidableEq, Repr

/-- A `QModelIndex`: `none` is the invalid index `QModelIndex()`, `some n` a valid
index naming the node `n` of the model. -/
abbrev QModelIndex := Option Nat

/-- `QModelIndex::isValid()`. -/
def QModelIndex.isValid (index : QModelIndex) : Bool :=
  index.isSome

/-- The values `data` hands back in a `QVariant`: the default-constructed
(invalid) variant of `return {}`, a pixmap, a string or a boolean. -/
inductive QVariant
  | invalid
  | pixmap (p : QPixmap)
  | string (s : String)
  | bool (b : Bool)
  deriving DecidableEq, Repr

/-- `QVariant::toString()` on the variants above. -/
def QVariant.toString : QVariant → String
  | QVariant.string s => s
  | QVariant.bool true => "true"
  | QVariant.bool false => "false"
  | _ => ""

/-- What the code reads of an `AssetBrowserEntry`: `GetEntryType()`,
`GetFullPath()`, `GetThumbnailKey()` and the column accessor `data(int)`. -/
structure AssetBrowserEntry where
  entryType : AssetEntryType
  fullPath : String
  thumbnailKey : Nat
  data : Nat → QVariant

/-- The struct `SourceFileDetails`, one answer of a source-file-details provider. -/
structure SourceFileDetails where
  m_sourceThumbnailPath : String
  deriving DecidableEq, Repr

/-- The outputs of `GetSourceInfoBySourcePath`: the returned flag, the
`m_relativePath` of the `AssetInfo` and the watch folder. -/
structure SourceInfo where
  foundIt : Bool
  m_relativePath : String
  watchFolder : String
  deriving DecidableEq, Repr

/-- The roles `data` is asked for: the two Qt roles and the three
`AssetFolderThumbnailView::Role` values the switch handles, and `other n` for
every role the switch does not list. -/
inductive Role
  | DecorationRole
  | ToolTipRole
  | IsExpandable
  | IsTopLevel
  | IsVisible
  | other (n : Nat)
  deriving DecidableEq, Repr

/-- The collaborators of the proxy model.  A bus field gives what
`BroadcastResult` leaves in its result variable: the aggregated values in handler
order for an `EBusAggregateResults`, the (possibly null) thumbnail, the lookup
outputs (with `foundIt = false` when no handler answers). -/
structure Services where
  /-- `PreviewerRequestBus`, `GetPreviewerFactory`: one possibly null factory per handler. -/
  GetPreviewerFactory : AssetBrowserEntry → List (Option Nat)
  /-- `ThumbnailerRequestBus`, `GetThumbnail`: `none` is a null `SharedThumbnail`. -/
  GetThumbnail : Nat → Option Thumbnail
  /-- `AssetBrowserInteractionNotificationBus`, `GetSourceFileDetails`, as a function
  of the entry's full path (handed over as `GetFullPath().c_str()`). -/
  GetSourceFileDetails : String → List SourceFileDetails
  /-- `AssetSystemRequestBus`, `GetSourceInfoBySourcePath`, on the C string
  `resultPath`. -/
  GetSourceInfoBySourcePath : String → SourceInfo
  /-- `AzFramework::StringFunc::Path::IsRelative`, on the C string `resultPath`. -/
  IsRelative : String → Bool
  /-- `AzFramework::StringFunc::Path::Join` on `watchFolder.c_str()` and
  `info.m_relativePath.c_str()`: the joined path it writes, as `finalPath.c_str()`. -/
  Join : String → String → String
  /-- `AZ::Utils::GetEnginePath()`. -/
  GetEnginePath : String
  /-- `operator/` of `AZ::IO::FixedMaxPath`. -/
  pathAppend : String → String → String
  /-- `mapToSource(index).data(EntryRole).value<const AssetBrowserEntry*>()`;
  `none` is the null pointer. -/
  entryOf : QModelIndex → Option AssetBrowserEntry
  /-- `rowCount(index)` of the proxy. -/
  rowCount : QModelIndex → Int
  /-- The model's `parent` on a valid index. -/
  parentOf : Nat → QModelIndex
  /-- `index.data(Role::IsExactMatch).value<bool>()`. -/
  isExactMatch : QModelIndex → Bool
  /-- `QAbstractProxyModel::data(index, role)`. -/
  baseData : QModelIndex → Role → QVariant

/-- `QModelIndex::parent()`: the invalid index has an invalid parent. -/
def QModelIndex.parent (sv : Services) (index : QModelIndex) : QModelIndex :=
  index.bind sv.parentOf

/-- A request `data` makes of a collaborator: a bus broadcast with its argument
(the entry of `GetPreviewerFactory` is named by its full path), the engine path
query, or the delegation to `QAbstractProxyModel::data`. -/
inductive Call
  | GetPreviewerFactory (entry : String)
  | GetThumbnail (key : Nat)
  | GetSourceFileDetails (fullPath : String)
  | GetSourceInfoBySourcePath (sourcePath : String)
  | GetEnginePath
  | BaseData (index : QModelIndex) (role : Role)
  deriving DecidableEq, Repr

/-- The result of `data`: the returned variant and the requests made on the way. -/
structure Outcome where
  value : QVariant
  calls : List Call
  deriving DecidableEq, Repr

/-- The signals of a model reset. -/
inductive Signal
  | beginResetModel
  | endResetModel
  deriving DecidableEq, Repr

/-- The members of the proxy model, and the reset notifications it has issued. -/
structure AssetBrowserThumbnailViewProxyModel where
  m_rootIndex : QModelIndex
  m_searchResultsMode : Bool
  signals : List Signal
  deriving DecidableEq, Repr

/-- The constant `FolderIconPath`. -/
def FolderIconPath : String := "Icons/AssetBrowser/Folder_16.svg"

/-- The constant `DefaultFileIconPath`. -/
def DefaultFileIconPath : String := "Assets/Editor/Icons/AssetBrowser/Default_16.svg"

/-- The test `thumbnail && thumbnail->GetState() != Thumbnail::State::Failed`,
giving the pixmap to return when it passes. -/
def usablePixmap : Option Thumbnail → Option QPixmap
  | some thumbnail => if thumbnail.state ≠ ThumbnailState.Failed then some thumbnail.pixmap else none
  | none => none

/-- The loop `for (const auto factory : factories.values)`: each non-null factory
triggers one `GetThumbnail` request for the entry's key, and the first usable
thumbnail ends the loop with its pixmap. -/
def previewerLoop (sv : Services) (entry : AssetBrowserEntry) :
    List (Option Nat) → Option QPixmap × List Call
  | [] => (none, [])
  | none :: rest => previewerLoop sv entry rest
  | some _ :: rest =>
    match usablePixmap (sv.GetThumbnail entry.thumbnailKey) with
    | some pixmap => (some pixmap, [Call.GetThumbnail entry.thumbnailKey])
    | none =>
      let r := previewerLoop sv entry rest
      (r.1, Call.GetThumbnail entry.thumbnailKey :: r.2)

/-- The C string behind `AZStd::string::c_str()`: the characters before the first
NUL, which is all that a reader of the `const char*` sees. -/
def c_str (s : String) : String :=
  String.mk (s.data.takeWhile (fun c => c != Char.ofNat 0))

/-- The `find_if` over `results.values`: the first response whose
`m_sourceThumbnailPath` is not empty. -/
def findSourceThumbnail (results : List SourceFileDetails) : Option SourceFileDetails :=
  results.find? (fun details => !(details.m_sourceThumbnailPath == ""))

/-- The test `resultPath[0] == ':'`. -/
def startsWithColon (resultPath : String) : Bool :=
  resultPath.data.head? == some ':'

/-- The body of `if (it != results.values.end() || isFolder)` for the chosen
`resultPath`: the icon path it leaves in `iconPathToUse` (empty when the lookup
fails) and the lookup it made, if any. -/
def massagePath (sv : Services) (resultPath : String) : String × List Call :=
  if startsWithColon resultPath || !sv.IsRelative resultPath then
    (resultPath, [])
  else
    let r := sv.GetSourceInfoBySourcePath resultPath
    if r.foundIt then
      (sv.Join r.watchFolder r.m_relativePath, [Call.GetSourceInfoBySourcePath resultPath])
    else
      ("", [Call.GetSourceInfoBySourcePath resultPath])

/-- Lines 84 to 135 of the `Qt::DecorationRole` case, from `const bool isFolder`
to `return iconPathToUse`, for the iterator `it` the `find_if` produced (`none`
is `results.values.end()`). -/
def resolveIcon (sv : Services) (entry : AssetBrowserEntry) (it : Option SourceFileDetails) :
    Outcome :=
  let isFolder : Bool := entry.entryType = AssetEntryType.Folder
  let resultPath : Option String :=
    if isFolder then some FolderIconPath
    else it.map (fun details => c_str details.m_sourceThumbnailPath)
  let found : String × List Call :=
    match resultPath with
    | some path => massagePath sv path
    | none => ("", [])
  if found.1 = "" then
    { value := QVariant.string (sv.pathAppend sv.GetEnginePath DefaultFileIconPath)
      calls := found.2 ++ [Call.GetEnginePath] }
  else
    { value := QVariant.string found.1
      calls := found.2 }

/-- The part of the `Qt::DecorationRole` case after the previewer loop:
"No custom previewer, so find the icon from files". -/
def iconFromFiles (sv : Services) (entry : AssetBrowserEntry) : Outcome :=
  let results := sv.GetSourceFileDetails entry.fullPath
  let it := findSourceThumbnail results
  let icon := resolveIcon sv entry it
  { value := icon.value
    calls := Call.GetSourceFileDetails entry.fullPath :: icon.calls }

/-- The `Qt::DecorationRole` case. -/
def decoration (sv : Services) (entry : AssetBrowserEntry) : Outcome :=
  let r := previewerLoop sv entry (sv.GetPreviewerFactory entry)
  match r.1 with
  | some pixmap =>
    { value := QVariant.pixmap pixmap
      calls := Call.GetPreviewerFactory entry.fullPath :: r.2 }
  | none =>
    let files := iconFromFiles sv entry
    { value := files.value
      calls := Call.GetPreviewerFactory entry.fullPath :: (r.2 ++ files.calls) }

/-- The member function `data(const QModelIndex& index, int role)`. -/
def data (sv : Services) (self : AssetBrowserThumbnailViewProxyModel)
    (index : QModelIndex) (role : Role) : Outcome :=
  match sv.entryOf index with
  | none => { value := QVariant.invalid, calls := [] }
  | some assetBrowserEntry =>
    match role with
    | Role.DecorationRole => decoration sv assetBrowserEntry
    | Role.ToolTipRole =>
      { value := QVariant.string (assetBrowserEntry.data 11).toString, calls := [] }
    | Role.IsExpandable =>
      if assetBrowserEntry.entryType = AssetEntryType.Folder then
        { value := QVariant.bool false, calls := [] }
      else
        { value := QVariant.bool (decide (sv.rowCount index > 0)), calls := [] }
    | Role.IsTopLevel =>
      if self.m_searchResultsMode then
        { value := QVariant.bool (sv.isExactMatch index), calls := [] }
      else if self.m_rootIndex.isValid then
        { value := QVariant.bool (decide (QModelIndex.parent sv index = self.m_rootIndex))
          calls := [] }
      else
        { value := QVariant.bool ((QModelIndex.parent sv index).isValid
            && !(QModelIndex.parent sv (QModelIndex.parent sv index)).isValid)
          calls := [] }
    | Role.IsVisible =>
      let isExactMatch := sv.isExactMatch index
      { value := QVariant.bool (!self.m_searchResultsMode || (self.m_searchResultsMode && isExactMatch))
        calls := [] }
    | Role.other n =>
      { value := sv.baseData index (Role.other n), calls := [Call.BaseData index (Role.other n)] }

/-- The member function `SetRootIndex`. -/
def SetRootIndex (self : AssetBrowserThumbnailViewProxyModel) (index : QModelIndex) :
    AssetBrowserThumbnailViewProxyModel :=
  { self with m_rootIndex := index }

/-- The member function `GetShowSearchResultsMode`. -/
def GetShowSearchResultsMode (self : AssetBrowserThumbnailViewProxyModel) : Bool :=
  self.m_searchResultsMode

/-- The member function `SetShowSearchResultsMode`. -/
def SetShowSearchResultsMode (self : AssetBrowserThumbnailViewProxyModel) (searchMode : Bool) :
    AssetBrowserThumbnailViewProxyModel :=
  if self.m_searchResultsMode ≠ searchMode then
    { self with
      m_searchResultsMode := searchMode
      signals := self.signals ++ [Signal.beginResetModel, Signal.endResetModel] }
  else
    self

/-- Whether the previewer stage yields a thumbnail, in the words of the
specification: some returned factory is non-null, and the thumbnailer's answer
for the entry's key exists and has not failed. -/
def hasUsablePreviewerThumbnail (sv : Services) (entry : AssetBrowserEntry) : Bool :=
  (sv.GetPreviewerFactory entry).any Option.isSome
    && (usablePixmap (sv.GetThumbnail entry.thumbnailKey)).isSome

/-- The same services with the source-file-details providers answering `results`. -/
def Services.withSourceFileDetails (sv : Services) (results : List SourceFileDetails) : Services :=
  { sv with GetSourceFileDetails := fun _ => results }

/-- The same services with the asset-system lookup replaced by `lookup`. -/
def Services.withLookup (sv : Services) (lookup : String → SourceInfo) : Services :=
  { sv with GetSourceInfoBySourcePath := lookup }

/-- The default icon path: the engine root with `DefaultFileIconPath` appended. -/
def defaultIcon (sv : Services) : String :=
  sv.pathAppend sv.GetEnginePath DefaultFileIconPath

/-! ## Sample collaborators -/

/-- An entry of the given type, used to instantiate the theorems. -/
def sampleEntry (entryType : AssetEntryType) : AssetBrowserEntry :=
  { entryType := entryType
    fullPath := "/proj/Assets/hero.fbx"
    thumbnailKey := 5
    data := fun _ => QVariant.string "hero" }

/-- Sample collaborators over a three-node chain `0 ← 1 ← 2` whose node 2 carries
`sampleEntry entryType`; paths follow the POSIX conventions (absolute means a
leading slash, joining puts a slash in between) and the engine root is `/o3de`. -/
def sampleServices (entryType : AssetEntryType) (factories : List (Option Nat))
    (thumbnail : Option Thumbnail) (results : List SourceFileDetails) (info : SourceInfo) :
    Services :=
  { GetPreviewerFactory := fun _ => factories
    GetThumbnail := fun _ => thumbnail
    GetSourceFileDetails := fun _ => results
    GetSourceInfoBySourcePath := fun _ => info
    IsRelative := fun path => !(path.data.head? == some '/')
    Join := fun first second => first ++ "/" ++ second
    GetEnginePath := "/o3de"
    pathAppend := fun root path => root ++ "/" ++ path
    entryOf := fun index => if index = some 2 then some (sampleEntry entryType) else none
    rowCount := fun index => if index = some 2 then 3 else 0
    parentOf := fun node => if node = 0 then none else some (node - 1)
    isExactMatch := fun index => decide (index = some 2)
    baseData := fun _ _ => QVariant.invalid }

/-- A proxy model outside search-results mode, without root index. -/
def sampleModel : AssetBrowserThumbnailViewProxyModel :=
  { m_rootIndex := none, m_searchResultsMode := false, signals := [] }

/-- A candidate path holding a NUL: `/abs/icon.svg`, a NUL, then `tail`. -/
def nulTailedPath : String :=
  String.mk ("/abs/icon.svg".data ++ Char.ofNat 0 :: "tail".data)

/-- A lookup answer that did not find the source. -/
def lookupMiss : SourceInfo :=
  { foundIt := false, m_relativePath := "", watchFolder := "" }

/-- A lookup answer locating `relativePath` under the watch folder `/proj/Gem`. -/
def lookupHit (relativePath : String) : SourceInfo :=
  { foundIt := true, m_relativePath := relativePath, watchFolder := "/proj/Gem" }

/-! ## The previewer loop -/

theorem previewerLoop_fst (sv : Services) (entry : AssetBrowserEntry) (factories : List (Option Nat)) :
    (previewerLoop sv entry factories).1
      = if factories.any Option.isSome then usablePixmap (sv.GetThumbnail entry.thumbnailKey)
        else none := by
  induction factories with
  | nil => simp [previewerLoop]
  | cons factory rest ih =>
    cases factory with
    | none => simpa [previewerLoop] using ih
    | some f =>
      cases h : usablePixmap (sv.GetThumbnail entry.thumbnailKey) with
      | none => simp [previewerLoop, h, ih]
      | some pixmap => simp [previewerLoop, h]

theorem previewerLoop_calls (sv : Services) (entry : AssetBrowserEntry) (factories : List (Option Nat)) :
    ∀ call ∈ (previewerLoop sv entry factories).2, call = Call.GetThumbnail entry.thumbnailKey := by
  induction factories with
  | nil => simp [previewerLoop]
  | cons factory rest ih =>
    cases factory with
    | none => simpa [previewerLoop] using ih
    | some f =>
      cases h : usablePixmap (sv.GetThumbnail entry.thumbnailKey) with
      | none => simpa [previewerLoop, h] using ih
      | some pixmap => simp [previewerLoop, h]

theorem previewerLoop_usable (sv : Services) (entry : AssetBrowserEntry) :
    (previewerLoop sv entry (sv.GetPreviewerFactory entry)).1
      = if hasUsablePreviewerThumbnail sv entry
        then usablePixmap (sv.GetThumbnail entry.thumbnailKey) else none := by
  rw [previewerLoop_fst]
  unfold hasUsablePreviewerThumbnail
  cases (sv.GetPreviewerFactory entry).any Option.isSome <;>
    cases usablePixmap (sv.GetThumbnail entry.thumbnailKey) <;> simp

theorem decoration_value_of_unusable (sv : Services) (entry : AssetBrowserEntry)
    (hNone : hasUsablePreviewerThumbnail sv entry = false) :
    (decoration sv entry).value = (iconFromFiles sv entry).value := by
  have h := previewerLoop_usable sv entry
  rw [hNone] at h
  simp only [Bool.false_eq_true, if_false] at h
  simp [decoration, h]

theorem decoration_calls_of_unusable (sv : Services) (entry : AssetBrowserEntry)
    (hNone : hasUsablePreviewerThumbnail sv entry = false) :
    (decoration sv entry).calls
      = Call.GetPreviewerFactory entry.fullPath
          :: ((previewerLoop sv entry (sv.GetPreviewerFactory entry)).2 ++ (iconFromFiles sv entry).calls) := by
  have h := previewerLoop_usable sv entry
  rw [hNone] at h
  simp only [Bool.false_eq_true, if_false] at h
  simp [decoration, h]

theorem data_decoration (sv : Services) (self : AssetBrowserThumbnailViewProxyModel)
    (index : QModelIndex) (entry : AssetBrowserEntry) (hEntry : sv.entryOf index = some entry) :
    data sv self index Role.DecorationRole = decoration sv entry := by
  simp [data, hEntry]

/-! ## The previewer thumbnail -/

/-- Claim C1: when the entry of the index exists, some returned previewer factory
is non-null and the thumbnailer answers the entry's thumbnail key with a thumbnail
whose state is not `Failed`, `data(index, DecorationRole)` is that thumbnail's
pixmap, for every answer of the source-file-details providers (which are not even
asked) and for every entry type. -/
theorem data_decoration_previewer_thumbnail (sv : Services)
    (self : AssetBrowserThumbnailViewProxyModel) (index : QModelIndex)
    (entry : AssetBrowserEntry) (thumbnail : Thumbnail)
    (hEntry : sv.entryOf index = some entry)
    (hFactory : ∃ factory ∈ sv.GetPreviewerFactory entry, factory ≠ none)
    (hThumbnail : sv.GetThumbnail entry.thumbnailKey = some thumbnail)
    (hState : thumbnail.state ≠ ThumbnailState.Failed) :
    (data sv self index Role.DecorationRole).value = QVariant.pixmap thumbnail.pixmap
      ∧ ∀ path, Call.GetSourceFileDetails path ∉ (data sv self index Role.DecorationRole).calls := by
  have hAny : (sv.GetPreviewerFactory entry).any Option.isSome = true := by
    obtain ⟨factory, hMem, hNe⟩ := hFactory
    rw [List.any_eq_true]
    refine ⟨factory, hMem, ?_⟩
    cases factory with
    | none => exact absurd rfl hNe
    | some f => rfl
  have hUse : usablePixmap (sv.GetThumbnail entry.thumbnailKey) = some thumbnail.pixmap := by
    simp [hThumbnail, usablePixmap, hState]
  have hLoop := previewerLoop_fst sv entry (sv.GetPreviewerFactory entry)
  rw [hAny, hUse] at hLoop
  simp only [if_true] at hLoop
  have hCalls := previewerLoop_calls sv entry (sv.GetPreviewerFactory entry)
  rw [data_decoration sv self index entry hEntry]
  refine ⟨by simp [decoration, hLoop], ?_⟩
  intro path hMem
  simp only [decoration, hLoop, List.mem_cons] at hMem
  rcases hMem with h | h
  · cases h
  · have := hCalls _ h
    cases this

/-- Claim C1 at a source entry with factories `[null, 1]` and a ready thumbnail,
while a source-file-details provider offers an embedded icon. -/
theorem data_decoration_previewer_thumbnail_witness :
    (data (sampleServices AssetEntryType.Source [none, some 1]
        (some { state := ThumbnailState.Ready, pixmap := { id := 9 } })
        [{ m_sourceThumbnailPath := ":/icons/fbx.svg" }] lookupMiss)
      sampleModel (some 2) Role.DecorationRole).value = QVariant.pixmap { id := 9 } :=
  (data_decoration_previewer_thumbnail
    (sampleServices AssetEntryType.Source [none, some 1]
      (some { state := ThumbnailState.Ready, pixmap := { id := 9 } })
      [{ m_sourceThumbnailPath := ":/icons/fbx.svg" }] lookupMiss)
    sampleModel (some 2) (sampleEntry AssetEntryType.Source)
    { state := ThumbnailState.Ready, pixmap := { id := 9 } }
    (by simp [sampleServices]) ⟨some 1, by simp [sampleServices], by simp⟩
    (by simp [sampleServices]) (by decide)).1

/-! ## Icons from files -/

theorem c_str_of_no_nul (s : String) (hNul : Char.ofNat 0 ∉ s.data) : c_str s = s := by
  have hAll : s.data.takeWhile (fun c => c != Char.ofNat 0) = s.data := by
    rw [List.takeWhile_eq_self_iff]
    intro c hMem
    have hNe : c ≠ Char.ofNat 0 := fun hEq => hNul (hEq ▸ hMem)
    simpa using hNe
  unfold c_str
  rw [hAll]

theorem findSourceThumbnail_skip (pre post : List SourceFileDetails) (candidate : SourceFileDetails)
    (hPre : ∀ details ∈ pre, details.m_sourceThumbnailPath = "")
    (hCandidate : candidate.m_sourceThumbnailPath ≠ "") :
    findSourceThumbnail (pre ++ candidate :: post) = some candidate := by
  induction pre with
  | nil => simp [findSourceThumbnail, hCandidate]
  | cons head rest ih =>
    have hHead : head.m_sourceThumbnailPath = "" := hPre head (List.mem_cons_self _ _)
    have hRest := ih (fun details hMem => hPre details (List.mem_cons_of_mem _ hMem))
    simpa [findSourceThumbnail, hHead] using hRest

theorem findSourceThumbnail_none (results : List SourceFileDetails)
    (hAll : ∀ details ∈ results, details.m_sourceThumbnailPath = "") :
    findSourceThumbnail results = none := by
  simpa [findSourceThumbnail] using hAll

theorem findSourceThumbnail_nonempty (results : List SourceFileDetails) (candidate : SourceFileDetails)
    (hFind : findSourceThumbnail results = some candidate) :
    candidate.m_sourceThumbnailPath ≠ "" := by
  have h := List.find?_some hFind
  simpa using h

theorem previewerLoop_withSourceFileDetails (sv : Services) (results : List SourceFileDetails)
    (entry : AssetBrowserEntry) (factories : List (Option Nat)) :
    previewerLoop (sv.withSourceFileDetails results) entry factories
      = previewerLoop sv entry factories := by
  induction factories with
  | nil => simp [previewerLoop]
  | cons factory rest ih =>
    cases factory with
    | none => simpa [previewerLoop] using ih
    | some f =>
      simp only [previewerLoop, ih]
      rfl

theorem resolveIcon_withSourceFileDetails (sv : Services) (results : List SourceFileDetails)
    (entry : AssetBrowserEntry) (it : Option SourceFileDetails) :
    resolveIcon (sv.withSourceFileDetails results) entry it = resolveIcon sv entry it := rfl

/-- The decoration depends on the source-file-details answers through the result
of the `find_if` only. -/
theorem decoration_congr (sv : Services) (entry : AssetBrowserEntry)
    (first second : List SourceFileDetails)
    (hSame : findSourceThumbnail first = findSourceThumbnail second) :
    decoration (sv.withSourceFileDetails first) entry
      = decoration (sv.withSourceFileDetails second) entry := by
  have hFactories : (sv.withSourceFileDetails first).GetPreviewerFactory entry
      = (sv.withSourceFileDetails second).GetPreviewerFactory entry := rfl
  have hFirst : iconFromFiles (sv.withSourceFileDetails first) entry
      = { value := (resolveIcon sv entry (findSourceThumbnail first)).value
          calls := Call.GetSourceFileDetails entry.fullPath
            :: (resolveIcon sv entry (findSourceThumbnail first)).calls } := rfl
  have hSecond : iconFromFiles (sv.withSourceFileDetails second) entry
      = { value := (resolveIcon sv entry (findSourceThumbnail second)).value
          calls := Call.GetSourceFileDetails entry.fullPath
            :: (resolveIcon sv entry (findSourceThumbnail second)).calls } := rfl
  unfold decoration
  rw [hFactories, previewerLoop_withSourceFileDetails, previewerLoop_withSourceFileDetails,
    hFirst, hSecond, hSame]

/-- The outcome of the icon stage for a non-folder entry whose `find_if` succeeds. -/
theorem resolveIcon_of_candidate (sv : Services) (entry : AssetBrowserEntry)
    (candidate : SourceFileDetails)
    (hFile : entry.entryType ≠ AssetEntryType.Folder) :
    resolveIcon sv entry (some candidate)
      = if (massagePath sv (c_str candidate.m_sourceThumbnailPath)).1 = "" then
          { value := QVariant.string (defaultIcon sv)
            calls := (massagePath sv (c_str candidate.m_sourceThumbnailPath)).2 ++ [Call.GetEnginePath] }
        else
          { value := QVariant.string (massagePath sv (c_str candidate.m_sourceThumbnailPath)).1
            calls := (massagePath sv (c_str candidate.m_sourceThumbnailPath)).2 } := by
  simp [resolveIcon, hFile, defaultIcon]

/-- The outcome of the icon stage for a folder entry. -/
theorem resolveIcon_of_folder (sv : Services) (entry : AssetBrowserEntry)
    (it : Option SourceFileDetails)
    (hFolder : entry.entryType = AssetEntryType.Folder) :
    resolveIcon sv entry it
      = if (massagePath sv FolderIconPath).1 = "" then
          { value := QVariant.string (defaultIcon sv)
            calls := (massagePath sv FolderIconPath).2 ++ [Call.GetEnginePath] }
        else
          { value := QVariant.string (massagePath sv FolderIconPath).1
            calls := (massagePath sv FolderIconPath).2 } := by
  simp [resolveIcon, hFolder, defaultIcon]

/-- The outcome of the icon stage for a non-folder entry whose `find_if` fails. -/
theorem resolveIcon_of_no_candidate (sv : Services) (entry : AssetBrowserEntry)
    (hFile : entry.entryType ≠ AssetEntryType.Folder) :
    resolveIcon sv entry none
      = { value := QVariant.string (defaultIcon sv), calls := [Call.GetEnginePath] } := by
  simp [resolveIcon, hFile, defaultIcon]

/-- The value of `data(index, DecorationRole)` when the previewer stage yields
nothing: the value of the icon stage on the `find_if` result. -/
theorem data_decoration_value_of_unusable (sv : Services)
    (self : AssetBrowserThumbnailViewProxyModel) (index : QModelIndex) (entry : AssetBrowserEntry)
    (hEntry : sv.entryOf index = some entry)
    (hNone : hasUsablePreviewerThumbnail sv entry = false) :
    (data sv self index Role.DecorationRole).value
      = (resolveIcon sv entry (findSourceThumbnail (sv.GetSourceFileDetails entry.fullPath))).value := by
  rw [data_decoration sv self index entry hEntry, decoration_value_of_unusable sv entry hNone]
  rfl

/-- The requests of `data(index, DecorationRole)` when the previewer stage yields
nothing. -/
theorem data_decoration_calls_of_unusable (sv : Services)
    (self : AssetBrowserThumbnailViewProxyModel) (index : QModelIndex) (entry : AssetBrowserEntry)
    (hEntry : sv.entryOf index = some entry)
    (hNone : hasUsablePreviewerThumbnail sv entry = false) :
    (data sv self index Role.DecorationRole).calls
      = Call.GetPreviewerFactory entry.fullPath
          :: ((previewerLoop sv entry (sv.GetPreviewerFactory entry)).2
              ++ Call.GetSourceFileDetails entry.fullPath
                :: (resolveIcon sv entry
                    (findSourceThumbnail (sv.GetSourceFileDetails entry.fullPath))).calls) := by
  rw [data_decoration sv self index entry hEntry, decoration_calls_of_unusable sv entry hNone]
  rfl

/-- Claim C2, refuted as stated: for a folder entry without previewer thumbnail
the decoration is not the literal `Icons/AssetBrowser/Folder_16.svg`.  With a
lookup that misses it is the default icon under the engine root, and with a
lookup that finds the icon under the watch folder `/proj/Gem` it is the joined
absolute path. -/
theorem data_decoration_folder_not_literal :
    (sampleServices AssetEntryType.Folder [] none [] lookupMiss).entryOf (some 2)
        = some (sampleEntry AssetEntryType.Folder)
      ∧ hasUsablePreviewerThumbnail (sampleServices AssetEntryType.Folder [] none [] lookupMiss)
          (sampleEntry AssetEntryType.Folder) = false
      ∧ (data (sampleServices AssetEntryType.Folder [] none [] lookupMiss)
          sampleModel (some 2) Role.DecorationRole).value
        = QVariant.string "/o3de/Assets/Editor/Icons/AssetBrowser/Default_16.svg"
      ∧ (data (sampleServices AssetEntryType.Folder [] none [] lookupMiss)
          sampleModel (some 2) Role.DecorationRole).value
        ≠ QVariant.string "Icons/AssetBrowser/Folder_16.svg"
      ∧ (data (sampleServices AssetEntryType.Folder [] none [] (lookupHit FolderIconPath))
          sampleModel (some 2) Role.DecorationRole).value
        = QVariant.string "/proj/Gem/Icons/AssetBrowser/Folder_16.svg"
      ∧ (data (sampleServices AssetEntryType.Folder [] none [] (lookupHit FolderIconPath))
          sampleModel (some 2) Role.DecorationRole).value
        ≠ QVariant.string "Icons/AssetBrowser/Folder_16.svg" := by
  refine ⟨by simp [sampleServices], by decide, by decide, by decide, by decide, by decide⟩

/-- Claim C2, amended: for a folder entry without usable previewer thumbnail,
`data(index, DecorationRole)` is the same for every list of source-file-details
candidates, and it is the fixed folder icon path
`Icons/AssetBrowser/Folder_16.svg` resolved as a relative path: the watch folder
joined with the looked-up relative path when the asset-system lookup of the folder
icon path succeeds (and the join is not empty), the default icon under the engine
root otherwise. -/
theorem data_decoration_folder (sv : Services) (self : AssetBrowserThumbnailViewProxyModel)
    (index : QModelIndex) (entry : AssetBrowserEntry)
    (hEntry : sv.entryOf index = some entry)
    (hFolder : entry.entryType = AssetEntryType.Folder)
    (hNone : hasUsablePreviewerThumbnail sv entry = false)
    (hRelative : sv.IsRelative FolderIconPath = true) :
    (∀ results : List SourceFileDetails,
        data (sv.withSourceFileDetails results) self index Role.DecorationRole
          = data sv self index Role.DecorationRole)
      ∧ (data sv self index Role.DecorationRole).value
        = QVariant.string
            (if (sv.GetSourceInfoBySourcePath FolderIconPath).foundIt = true
                ∧ sv.Join (sv.GetSourceInfoBySourcePath FolderIconPath).watchFolder
                    (sv.GetSourceInfoBySourcePath FolderIconPath).m_relativePath ≠ ""
             then sv.Join (sv.GetSourceInfoBySourcePath FolderIconPath).watchFolder
                    (sv.GetSourceInfoBySourcePath FolderIconPath).m_relativePath
             else sv.pathAppend sv.GetEnginePath DefaultFileIconPath) := by
  have hColon : startsWithColon FolderIconPath = false := by decide
  constructor
  · intro results
    have hEntry2 : (sv.withSourceFileDetails results).entryOf index = some entry := hEntry
    rw [data_decoration _ self index entry hEntry2, data_decoration sv self index entry hEntry]
    have hLoop := previewerLoop_withSourceFileDetails sv results entry (sv.GetPreviewerFactory entry)
    have hIcon : iconFromFiles (sv.withSourceFileDetails results) entry = iconFromFiles sv entry := by
      unfold iconFromFiles
      simp only [resolveIcon_of_folder _ entry _ hFolder]
      rfl
    have hFactories : (sv.withSourceFileDetails results).GetPreviewerFactory entry
        = sv.GetPreviewerFactory entry := rfl
    unfold decoration
    rw [hFactories, hLoop, hIcon]
  · rw [data_decoration_value_of_unusable sv self index entry hEntry hNone,
      resolveIcon_of_folder sv entry _ hFolder]
    cases hFound : (sv.GetSourceInfoBySourcePath FolderIconPath).foundIt
    · simp [massagePath, hColon, hRelative, hFound, defaultIcon]
    · by_cases hJoin : sv.Join (sv.GetSourceInfoBySourcePath FolderIconPath).watchFolder
          (sv.GetSourceInfoBySourcePath FolderIconPath).m_relativePath = ""
      · simp [massagePath, hColon, hRelative, hFound, hJoin, defaultIcon]
      · simp [massagePath, hColon, hRelative, hFound, hJoin]

/-- Claim C2 (amended) at a folder entry whose provider offers an embedded icon:
the lookup finds the folder icon under `/proj/Gem`, and the candidate is ignored. -/
theorem data_decoration_folder_witness :
    (data (sampleServices AssetEntryType.Folder [] none
        [{ m_sourceThumbnailPath := ":/icons/custom.svg" }] (lookupHit FolderIconPath))
      sampleModel (some 2) Role.DecorationRole).value
      = QVariant.string
          (if (lookupHit FolderIconPath).foundIt = true
              ∧ "/proj/Gem" ++ "/" ++ FolderIconPath ≠ ""
           then "/proj/Gem" ++ "/" ++ FolderIconPath
           else "/o3de" ++ "/" ++ DefaultFileIconPath) :=
  (data_decoration_folder
    (sampleServices AssetEntryType.Folder [] none
      [{ m_sourceThumbnailPath := ":/icons/custom.svg" }] (lookupHit FolderIconPath))
    sampleModel (some 2) (sampleEntry AssetEntryType.Folder)
    (by simp [sampleServices]) rfl (by decide) (by decide)).2

/-- Claim C3, refuted as stated: the source entry's only candidate is the
relative path `Icons/fbx.svg`, and the lookup succeeds with watch folder
`/proj/Gem` while reporting the relative path `Moved/fbx_v2.svg`.  The decoration
is `/proj/Gem/Moved/fbx_v2.svg`, not the watch folder joined with the candidate. -/
theorem data_decoration_relative_found_not_candidate :
    (sampleServices AssetEntryType.Source [] none
        [{ m_sourceThumbnailPath := "Icons/fbx.svg" }] (lookupHit "Moved/fbx_v2.svg")).entryOf
          (some 2) = some (sampleEntry AssetEntryType.Source)
      ∧ hasUsablePreviewerThumbnail (sampleServices AssetEntryType.Source [] none
          [{ m_sourceThumbnailPath := "Icons/fbx.svg" }] (lookupHit "Moved/fbx_v2.svg"))
          (sampleEntry AssetEntryType.Source) = false
      ∧ findSourceThumbnail [{ m_sourceThumbnailPath := "Icons/fbx.svg" }]
        = some { m_sourceThumbnailPath := "Icons/fbx.svg" }
      ∧ startsWithColon "Icons/fbx.svg" = false
      ∧ (sampleServices AssetEntryType.Source [] none
          [{ m_sourceThumbnailPath := "Icons/fbx.svg" }] (lookupHit "Moved/fbx_v2.svg")).IsRelative
            "Icons/fbx.svg" = true
      ∧ (lookupHit "Moved/fbx_v2.svg").foundIt = true
      ∧ (lookupHit "Moved/fbx_v2.svg").watchFolder = "/proj/Gem"
      ∧ (data (sampleServices AssetEntryType.Source [] none
          [{ m_sourceThumbnailPath := "Icons/fbx.svg" }] (lookupHit "Moved/fbx_v2.svg"))
          sampleModel (some 2) Role.DecorationRole).value
        = QVariant.string "/proj/Gem/Moved/fbx_v2.svg"
      ∧ (data (sampleServices AssetEntryType.Source [] none
          [{ m_sourceThumbnailPath := "Icons/fbx.svg" }] (lookupHit "Moved/fbx_v2.svg"))
          sampleModel (some 2) Role.DecorationRole).value
        ≠ QVariant.string
            ((sampleServices AssetEntryType.Source [] none
              [{ m_sourceThumbnailPath := "Icons/fbx.svg" }] (lookupHit "Moved/fbx_v2.svg")).Join
              "/proj/Gem" "Icons/fbx.svg") := by
  refine ⟨by simp [sampleServices], by decide, by decide, by decide, by decide, by decide,
    by decide, by decide, by decide⟩

/-- Claim C3, amended: for a non-folder entry without usable previewer thumbnail
whose winning candidate is a relative path not starting with `:`, when the
asset-system lookup of the candidate succeeds, `data(index, DecorationRole)` is the
path that `Join` builds from the watch folder and the relative path that the
lookup reports in its asset info (`m_relativePath`), which need not be the
candidate; if that join is empty, the result is the default icon path.  When the
lookup reports the candidate itself, the result is the watch folder joined with
the candidate. -/
theorem data_decoration_relative_found (sv : Services)
    (self : AssetBrowserThumbnailViewProxyModel) (index : QModelIndex)
    (entry : AssetBrowserEntry) (candidate : SourceFileDetails)
    (hEntry : sv.entryOf index = some entry)
    (hFile : entry.entryType ≠ AssetEntryType.Folder)
    (hNone : hasUsablePreviewerThumbnail sv entry = false)
    (hFind : findSourceThumbnail (sv.GetSourceFileDetails entry.fullPath) = some candidate)
    (hColon : startsWithColon (c_str candidate.m_sourceThumbnailPath) = false)
    (hRelative : sv.IsRelative (c_str candidate.m_sourceThumbnailPath) = true)
    (hFound : (sv.GetSourceInfoBySourcePath (c_str candidate.m_sourceThumbnailPath)).foundIt
      = true) :
    (data sv self index Role.DecorationRole).value
        = QVariant.string
            (if sv.Join
                  (sv.GetSourceInfoBySourcePath (c_str candidate.m_sourceThumbnailPath)).watchFolder
                  (sv.GetSourceInfoBySourcePath (c_str candidate.m_sourceThumbnailPath)).m_relativePath
                = ""
             then sv.pathAppend sv.GetEnginePath DefaultFileIconPath
             else sv.Join
                  (sv.GetSourceInfoBySourcePath (c_str candidate.m_sourceThumbnailPath)).watchFolder
                  (sv.GetSourceInfoBySourcePath (c_str candidate.m_sourceThumbnailPath)).m_relativePath)
      ∧ (sv.Join (sv.GetSourceInfoBySourcePath (c_str candidate.m_sourceThumbnailPath)).watchFolder
            (sv.GetSourceInfoBySourcePath (c_str candidate.m_sourceThumbnailPath)).m_relativePath
          ≠ "" →
        (data sv self index Role.DecorationRole).value
          = QVariant.string
              (sv.Join
                (sv.GetSourceInfoBySourcePath (c_str candidate.m_sourceThumbnailPath)).watchFolder
                (sv.GetSourceInfoBySourcePath (c_str candidate.m_sourceThumbnailPath)).m_relativePath))
      ∧ ((sv.GetSourceInfoBySourcePath (c_str candidate.m_sourceThumbnailPath)).m_relativePath
            = c_str candidate.m_sourceThumbnailPath →
          sv.Join (sv.GetSourceInfoBySourcePath (c_str candidate.m_sourceThumbnailPath)).watchFolder
            (c_str candidate.m_sourceThumbnailPath) ≠ "" →
          (data sv self index Role.DecorationRole).value
            = QVariant.string
                (sv.Join
                  (sv.GetSourceInfoBySourcePath (c_str candidate.m_sourceThumbnailPath)).watchFolder
                  (c_str candidate.m_sourceThumbnailPath))) := by
  have hValue : (data sv self index Role.DecorationRole).value
      = QVariant.string
          (if sv.Join
                (sv.GetSourceInfoBySourcePath (c_str candidate.m_sourceThumbnailPath)).watchFolder
                (sv.GetSourceInfoBySourcePath (c_str candidate.m_sourceThumbnailPath)).m_relativePath
              = ""
           then sv.pathAppend sv.GetEnginePath DefaultFileIconPath
           else sv.Join
                (sv.GetSourceInfoBySourcePath (c_str candidate.m_sourceThumbnailPath)).watchFolder
                (sv.GetSourceInfoBySourcePath (c_str candidate.m_sourceThumbnailPath)).m_relativePath) := by
    rw [data_decoration_value_of_unusable sv self index entry hEntry hNone, hFind,
      resolveIcon_of_candidate sv entry candidate hFile]
    by_cases hJoin : sv.Join
        (sv.GetSourceInfoBySourcePath (c_str candidate.m_sourceThumbnailPath)).watchFolder
        (sv.GetSourceInfoBySourcePath (c_str candidate.m_sourceThumbnailPath)).m_relativePath = ""
    · simp [massagePath, hColon, hRelative, hFound, hJoin, defaultIcon]
    · simp [massagePath, hColon, hRelative, hFound, hJoin]
  refine ⟨hValue, ?_, ?_⟩
  · intro hJoin
    rw [hValue, if_neg hJoin]
  · intro hSame hJoin
    rw [hValue, hSame, if_neg hJoin]

/-- Claim C3 (amended) at a source entry whose provider names `Icons/fbx.svg`,
which the lookup finds under the watch folder `/proj/Gem` as `Moved/fbx_v2.svg`. -/
theorem data_decoration_relative_found_witness :
    (data (sampleServices AssetEntryType.Source [] none
        [{ m_sourceThumbnailPath := "" }, { m_sourceThumbnailPath := "Icons/fbx.svg" }]
        (lookupHit "Moved/fbx_v2.svg"))
      sampleModel (some 2) Role.DecorationRole).value
      = QVariant.string ("/proj/Gem" ++ "/" ++ "Moved/fbx_v2.svg") :=
  (data_decoration_relative_found
    (sampleServices AssetEntryType.Source [] none
      [{ m_sourceThumbnailPath := "" }, { m_sourceThumbnailPath := "Icons/fbx.svg" }]
      (lookupHit "Moved/fbx_v2.svg"))
    sampleModel (some 2) (sampleEntry AssetEntryType.Source)
    { m_sourceThumbnailPath := "Icons/fbx.svg" }
    (by simp [sampleServices]) (by decide) (by decide) (by decide) (by decide) (by decide)
    (by decide)).2.1 (by decide)

/-- Claim C4: for a non-folder entry without usable previewer thumbnail, when
every provider response has an empty thumbnail path, or the winning candidate (in
particular an only candidate) is a relative path, not an embedded resource, whose
asset-system lookup fails, `data(index, DecorationRole)` is the default icon path:
the engine root with `Assets/Editor/Icons/AssetBrowser/Default_16.svg` appended.
The candidate is classified and looked up as the code reads it, through `c_str`. -/
theorem data_decoration_default_icon (sv : Services)
    (self : AssetBrowserThumbnailViewProxyModel) (index : QModelIndex)
    (entry : AssetBrowserEntry)
    (hEntry : sv.entryOf index = some entry)
    (hFile : entry.entryType ≠ AssetEntryType.Folder)
    (hNone : hasUsablePreviewerThumbnail sv entry = false)
    (hCase : (∀ details ∈ sv.GetSourceFileDetails entry.fullPath,
          details.m_sourceThumbnailPath = "")
      ∨ ∃ candidate,
          findSourceThumbnail (sv.GetSourceFileDetails entry.fullPath) = some candidate
            ∧ startsWithColon (c_str candidate.m_sourceThumbnailPath) = false
            ∧ sv.IsRelative (c_str candidate.m_sourceThumbnailPath) = true
            ∧ (sv.GetSourceInfoBySourcePath (c_str candidate.m_sourceThumbnailPath)).foundIt = false) :
    (data sv self index Role.DecorationRole).value
      = QVariant.string
          (sv.pathAppend sv.GetEnginePath "Assets/Editor/Icons/AssetBrowser/Default_16.svg") := by
  rw [data_decoration_value_of_unusable sv self index entry hEntry hNone]
  rcases hCase with hAll | ⟨candidate, hFind, hColon, hRelative, hFound⟩
  · rw [findSourceThumbnail_none _ hAll, resolveIcon_of_no_candidate sv entry hFile]
    rfl
  · rw [hFind, resolveIcon_of_candidate sv entry candidate hFile]
    simp [massagePath, hColon, hRelative, hFound, defaultIcon, DefaultFileIconPath]

/-- Claim C4 at a source entry whose only candidate `Icons/fbx.svg` is not found
by the lookup. -/
theorem data_decoration_default_icon_witness :
    (data (sampleServices AssetEntryType.Source [] none
        [{ m_sourceThumbnailPath := "Icons/fbx.svg" }] lookupMiss)
      sampleModel (some 2) Role.DecorationRole).value
      = QVariant.string ("/o3de" ++ "/" ++ "Assets/Editor/Icons/AssetBrowser/Default_16.svg") :=
  data_decoration_default_icon
    (sampleServices AssetEntryType.Source [] none
      [{ m_sourceThumbnailPath := "Icons/fbx.svg" }] lookupMiss)
    sampleModel (some 2) (sampleEntry AssetEntryType.Source)
    (by simp [sampleServices]) (by decide) (by decide)
    (Or.inr ⟨{ m_sourceThumbnailPath := "Icons/fbx.svg" }, by decide, by decide, by decide,
      by decide⟩)

/-- Claim C5, refuted as stated: the source entry's only candidate is the
absolute path `/abs/icon.svg` followed by a NUL and `tail`.  It is not empty and
it is absolute, whole and as a C string, yet the decoration is `/abs/icon.svg`,
not the candidate unchanged. -/
theorem data_decoration_verbatim_truncated :
    (sampleServices AssetEntryType.Source [] none
        [{ m_sourceThumbnailPath := nulTailedPath }] lookupMiss).entryOf (some 2)
        = some (sampleEntry AssetEntryType.Source)
      ∧ hasUsablePreviewerThumbnail (sampleServices AssetEntryType.Source [] none
          [{ m_sourceThumbnailPath := nulTailedPath }] lookupMiss)
          (sampleEntry AssetEntryType.Source) = false
      ∧ findSourceThumbnail [{ m_sourceThumbnailPath := nulTailedPath }]
        = some { m_sourceThumbnailPath := nulTailedPath }
      ∧ (sampleServices AssetEntryType.Source [] none
          [{ m_sourceThumbnailPath := nulTailedPath }] lookupMiss).IsRelative nulTailedPath = false
      ∧ (sampleServices AssetEntryType.Source [] none
          [{ m_sourceThumbnailPath := nulTailedPath }] lookupMiss).IsRelative (c_str nulTailedPath)
        = false
      ∧ (data (sampleServices AssetEntryType.Source [] none
          [{ m_sourceThumbnailPath := nulTailedPath }] lookupMiss)
          sampleModel (some 2) Role.DecorationRole).value = QVariant.string "/abs/icon.svg"
      ∧ (data (sampleServices AssetEntryType.Source [] none
          [{ m_sourceThumbnailPath := nulTailedPath }] lookupMiss)
          sampleModel (some 2) Role.DecorationRole).value ≠ QVariant.string nulTailedPath := by
  refine ⟨by simp [sampleServices], by decide, by decide, by decide, by decide, by decide,
    by decide⟩

/-- Claim C5, amended: for a non-folder entry without usable previewer thumbnail
whose winning candidate, read as the C string the code takes from it, starts with
`:` or is not relative (an absolute path), `data(index, DecorationRole)` is exactly
that C string: the candidate up to its first NUL, hence the candidate unchanged
whenever it holds no NUL (and the default icon path should the C string be empty).
No asset-system lookup is made, and replacing the lookup by any other leaves the
value unchanged. -/
theorem data_decoration_verbatim (sv : Services)
    (self : AssetBrowserThumbnailViewProxyModel) (index : QModelIndex)
    (entry : AssetBrowserEntry) (candidate : SourceFileDetails)
    (hEntry : sv.entryOf index = some entry)
    (hFile : entry.entryType ≠ AssetEntryType.Folder)
    (hNone : hasUsablePreviewerThumbnail sv entry = false)
    (hFind : findSourceThumbnail (sv.GetSourceFileDetails entry.fullPath) = some candidate)
    (hKind : startsWithColon (c_str candidate.m_sourceThumbnailPath) = true
      ∨ sv.IsRelative (c_str candidate.m_sourceThumbnailPath) = false) :
    (data sv self index Role.DecorationRole).value
        = QVariant.string
            (if c_str candidate.m_sourceThumbnailPath = ""
             then sv.pathAppend sv.GetEnginePath DefaultFileIconPath
             else c_str candidate.m_sourceThumbnailPath)
      ∧ (Char.ofNat 0 ∉ candidate.m_sourceThumbnailPath.data →
          (data sv self index Role.DecorationRole).value
            = QVariant.string candidate.m_sourceThumbnailPath)
      ∧ (∀ path, Call.GetSourceInfoBySourcePath path
          ∉ (data sv self index Role.DecorationRole).calls)
      ∧ ∀ lookup : String → SourceInfo,
          (data (sv.withLookup lookup) self index Role.DecorationRole).value
            = (data sv self index Role.DecorationRole).value := by
  have hNonempty := findSourceThumbnail_nonempty _ candidate hFind
  have hMassage : ∀ sv2 : Services, sv2.IsRelative = sv.IsRelative →
      massagePath sv2 (c_str candidate.m_sourceThumbnailPath)
        = (c_str candidate.m_sourceThumbnailPath, []) := by
    intro sv2 hSame
    rcases hKind with h | h
    · simp [massagePath, h]
    · simp [massagePath, hSame, h]
  have hValue : ∀ sv2 : Services, sv2.IsRelative = sv.IsRelative →
      sv2.entryOf = sv.entryOf → sv2.GetPreviewerFactory = sv.GetPreviewerFactory →
      sv2.GetThumbnail = sv.GetThumbnail → sv2.GetSourceFileDetails = sv.GetSourceFileDetails →
      sv2.pathAppend = sv.pathAppend → sv2.GetEnginePath = sv.GetEnginePath →
      (data sv2 self index Role.DecorationRole).value
        = QVariant.string
            (if c_str candidate.m_sourceThumbnailPath = ""
             then sv.pathAppend sv.GetEnginePath DefaultFileIconPath
             else c_str candidate.m_sourceThumbnailPath) := by
    intro sv2 hRel hEnt hFac hThumb hDetails hAppend hEngine
    have hEntry2 : sv2.entryOf index = some entry := by rw [hEnt]; exact hEntry
    have hNone2 : hasUsablePreviewerThumbnail sv2 entry = false := by
      unfold hasUsablePreviewerThumbnail at hNone ⊢
      rw [hFac, hThumb]; exact hNone
    have hFind2 : findSourceThumbnail (sv2.GetSourceFileDetails entry.fullPath) = some candidate := by
      rw [hDetails]; exact hFind
    rw [data_decoration_value_of_unusable sv2 self index entry hEntry2 hNone2, hFind2,
      resolveIcon_of_candidate sv2 entry candidate hFile, hMassage sv2 hRel]
    by_cases hEmpty : c_str candidate.m_sourceThumbnailPath = ""
    · simp [hEmpty, defaultIcon, hAppend, hEngine]
    · simp [hEmpty]
  have hHere := hValue sv rfl rfl rfl rfl rfl rfl rfl
  refine ⟨hHere, ?_, ?_, ?_⟩
  · intro hNul
    rw [hHere, c_str_of_no_nul _ hNul, if_neg hNonempty]
  · intro path hMem
    rw [data_decoration_calls_of_unusable sv self index entry hEntry hNone, hFind,
      resolveIcon_of_candidate sv entry candidate hFile, hMassage sv rfl] at hMem
    simp only [List.mem_cons, List.mem_append] at hMem
    rcases hMem with h | h | h | h
    · cases h
    · have := previewerLoop_calls sv entry (sv.GetPreviewerFactory entry) _ h
      cases this
    · cases h
    · split at h <;> simp at h
  · intro lookup
    rw [hValue (sv.withLookup lookup) rfl rfl rfl rfl rfl rfl rfl, hHere]

/-- Claim C5 (amended) at a source entry whose provider names the embedded
resource `:/icons/fbx.svg`, with a lookup that would have found something else. -/
theorem data_decoration_verbatim_witness :
    (data (sampleServices AssetEntryType.Source [] none
        [{ m_sourceThumbnailPath := ":/icons/fbx.svg" }] (lookupHit "Icons/other.svg"))
      sampleModel (some 2) Role.DecorationRole).value
      = QVariant.string ":/icons/fbx.svg" :=
  (data_decoration_verbatim
    (sampleServices AssetEntryType.Source [] none
      [{ m_sourceThumbnailPath := ":/icons/fbx.svg" }] (lookupHit "Icons/other.svg"))
    sampleModel (some 2) (sampleEntry AssetEntryType.Source)
    { m_sourceThumbnailPath := ":/icons/fbx.svg" }
    (by simp [sampleServices]) (by decide) (by decide) (by decide)
    (Or.inl (by decide))).2.1 (by decide)

/-- Claim C6: for a non-folder entry without usable previewer thumbnail, the
candidate that icon resolution uses is the first source-file-details response, in
response order, whose thumbnail path is not empty.  Responses with an empty path
in front of it are skipped and responses behind it are ignored: the outcome is
that of the list holding the candidate alone, and its value is the resolution of
that candidate (the default icon when the resolution leaves nothing, as after a
failed lookup).  Two response lists with the same first non-empty candidate, or
both without one, give the same outcome. -/
theorem data_decoration_first_candidate (sv : Services)
    (self : AssetBrowserThumbnailViewProxyModel) (index : QModelIndex)
    (entry : AssetBrowserEntry)
    (hEntry : sv.entryOf index = some entry)
    (hFile : entry.entryType ≠ AssetEntryType.Folder)
    (hNone : hasUsablePreviewerThumbnail sv entry = false) :
    (∀ (pre post : List SourceFileDetails) (candidate : SourceFileDetails),
        (∀ details ∈ pre, details.m_sourceThumbnailPath = "") →
        candidate.m_sourceThumbnailPath ≠ "" →
        findSourceThumbnail (pre ++ candidate :: post) = some candidate
          ∧ data (sv.withSourceFileDetails (pre ++ candidate :: post)) self index
              Role.DecorationRole
            = data (sv.withSourceFileDetails [candidate]) self index Role.DecorationRole
          ∧ (data (sv.withSourceFileDetails (pre ++ candidate :: post)) self index
              Role.DecorationRole).value
            = QVariant.string
                (if (massagePath sv (c_str candidate.m_sourceThumbnailPath)).1 = "" then defaultIcon sv
                 else (massagePath sv (c_str candidate.m_sourceThumbnailPath)).1))
      ∧ ∀ first second : List SourceFileDetails,
          findSourceThumbnail first = findSourceThumbnail second →
          data (sv.withSourceFileDetails first) self index Role.DecorationRole
            = data (sv.withSourceFileDetails second) self index Role.DecorationRole := by
  have hData : ∀ results : List SourceFileDetails,
      data (sv.withSourceFileDetails results) self index Role.DecorationRole
        = decoration (sv.withSourceFileDetails results) entry := by
    intro results
    have hEntry2 : (sv.withSourceFileDetails results).entryOf index = some entry := hEntry
    exact data_decoration _ self index entry hEntry2
  have hCongr : ∀ first second : List SourceFileDetails,
      findSourceThumbnail first = findSourceThumbnail second →
      data (sv.withSourceFileDetails first) self index Role.DecorationRole
        = data (sv.withSourceFileDetails second) self index Role.DecorationRole := by
    intro first second hSame
    rw [hData, hData]
    exact decoration_congr sv entry first second hSame
  refine ⟨?_, hCongr⟩
  intro pre post candidate hPre hCandidate
  have hSkip := findSourceThumbnail_skip pre post candidate hPre hCandidate
  have hSingle : findSourceThumbnail [candidate] = some candidate := by
    simpa using findSourceThumbnail_skip [] [] candidate (by simp) hCandidate
  refine ⟨hSkip, hCongr _ _ (hSkip.trans hSingle.symm), ?_⟩
  have hEntry2 : (sv.withSourceFileDetails (pre ++ candidate :: post)).entryOf index
      = some entry := hEntry
  have hNone2 : hasUsablePreviewerThumbnail (sv.withSourceFileDetails (pre ++ candidate :: post))
      entry = false := hNone
  have hFind2 : findSourceThumbnail
      ((sv.withSourceFileDetails (pre ++ candidate :: post)).GetSourceFileDetails entry.fullPath)
        = some candidate := hSkip
  rw [data_decoration_value_of_unusable _ self index entry hEntry2 hNone2, hFind2,
    resolveIcon_withSourceFileDetails, resolveIcon_of_candidate sv entry candidate hFile]
  split <;> rfl

/-- Claim C6 at a source entry: an empty response, then `Icons/fbx.svg` (whose
lookup fails), then an embedded icon that would have resolved. -/
theorem data_decoration_first_candidate_witness :
    data ((sampleServices AssetEntryType.Source [] none [] lookupMiss).withSourceFileDetails
        ([{ m_sourceThumbnailPath := "" }] ++ { m_sourceThumbnailPath := "Icons/fbx.svg" }
          :: [{ m_sourceThumbnailPath := ":/icons/fbx.svg" }]))
      sampleModel (some 2) Role.DecorationRole
      = data ((sampleServices AssetEntryType.Source [] none [] lookupMiss).withSourceFileDetails
          [{ m_sourceThumbnailPath := "Icons/fbx.svg" }])
        sampleModel (some 2) Role.DecorationRole :=
  ((data_decoration_first_candidate (sampleServices AssetEntryType.Source [] none [] lookupMiss)
    sampleModel (some 2) (sampleEntry AssetEntryType.Source)
    (by simp [sampleServices]) (by decide) (by decide)).1
      [{ m_sourceThumbnailPath := "" }] [{ m_sourceThumbnailPath := ":/icons/fbx.svg" }]
      { m_sourceThumbnailPath := "Icons/fbx.svg" } (by simp) (by decide)).2.1

/-! ## Search-results mode -/

/-- Claim C7: for every current search-results mode and every argument,
`SetShowSearchResultsMode(searchMode)` leaves `GetShowSearchResultsMode()` equal to
the argument and issues exactly one `beginResetModel`/`endResetModel` pair when
the mode differs from the argument, and nothing when they are equal (the model is
then unchanged altogether). -/
theorem SetShowSearchResultsMode_reset (self : AssetBrowserThumbnailViewProxyModel)
    (searchMode : Bool) :
    GetShowSearchResultsMode (SetShowSearchResultsMode self searchMode) = searchMode
      ∧ (SetShowSearchResultsMode self searchMode).signals
        = self.signals
          ++ (if GetShowSearchResultsMode self ≠ searchMode
              then [Signal.beginResetModel, Signal.endResetModel] else [])
      ∧ (SetShowSearchResultsMode self searchMode).m_rootIndex = self.m_rootIndex := by
  unfold SetShowSearchResultsMode GetShowSearchResultsMode
  by_cases h : self.m_searchResultsMode = searchMode
  · simp [h]
  · simp [h]

/-! ## The view roles -/

/-- Claim C8: when the entry of the index exists, `data(index, IsExpandable)` is
false for a folder entry, whatever its row count, and for a non-folder entry it is
true exactly when `rowCount(index) > 0`. -/
theorem data_isExpandable (sv : Services) (self : AssetBrowserThumbnailViewProxyModel)
    (index : QModelIndex) (entry : AssetBrowserEntry)
    (hEntry : sv.entryOf index = some entry) :
    (entry.entryType = AssetEntryType.Folder →
        (data sv self index Role.IsExpandable).value = QVariant.bool false)
      ∧ (entry.entryType ≠ AssetEntryType.Folder →
        (data sv self index Role.IsExpandable).value
            = QVariant.bool (decide (sv.rowCount index > 0))
          ∧ ((data sv self index Role.IsExpandable).value = QVariant.bool true
              ↔ sv.rowCount index > 0)) := by
  constructor
  · intro hFolder
    simp [data, hEntry, hFolder]
  · intro hFile
    simp [data, hEntry, hFile]

/-- Claim C8 at the sample source entry, which has three child rows. -/
theorem data_isExpandable_witness :
    (data (sampleServices AssetEntryType.Source [] none [] lookupMiss) sampleModel (some 2)
      Role.IsExpandable).value = QVariant.bool (decide ((3 : Int) > 0)) :=
  ((data_isExpandable (sampleServices AssetEntryType.Source [] none [] lookupMiss) sampleModel
    (some 2) (sampleEntry AssetEntryType.Source) (by simp [sampleServices])).2 (by decide)).1

/-- Claim C9: when the entry of the index exists, `data(index, IsTopLevel)` is, in
search-results mode, the exact-match flag of the index; outside search-results
mode with a valid root index (as `SetRootIndex` stored it), whether the parent of
the index equals the root index; and outside search-results mode without valid
root index, whether the parent of the index is valid and its grandparent is not. -/
theorem data_isTopLevel (sv : Services) (self : AssetBrowserThumbnailViewProxyModel)
    (index : QModelIndex) (entry : AssetBrowserEntry)
    (hEntry : sv.entryOf index = some entry) :
    (GetShowSearchResultsMode self = true →
        (data sv self index Role.IsTopLevel).value = QVariant.bool (sv.isExactMatch index))
      ∧ (∀ root : QModelIndex, GetShowSearchResultsMode self = false → root.isValid = true →
        (data sv (SetRootIndex self root) index Role.IsTopLevel).value
          = QVariant.bool (decide (QModelIndex.parent sv index = root)))
      ∧ (GetShowSearchResultsMode self = false → self.m_rootIndex.isValid = true →
        (data sv self index Role.IsTopLevel).value
          = QVariant.bool (decide (QModelIndex.parent sv index = self.m_rootIndex)))
      ∧ (GetShowSearchResultsMode self = false → self.m_rootIndex.isValid = false →
        (data sv self index Role.IsTopLevel).value
          = QVariant.bool ((QModelIndex.parent sv index).isValid
              && !(QModelIndex.parent sv (QModelIndex.parent sv index)).isValid)) := by
  unfold GetShowSearchResultsMode
  refine ⟨?_, ?_, ?_, ?_⟩
  · intro hMode
    simp [data, hEntry, hMode]
  · intro root hMode hRoot
    simp [data, hEntry, SetRootIndex, hMode, hRoot]
  · intro hMode hRoot
    simp [data, hEntry, hMode, hRoot]
  · intro hMode hRoot
    simp [data, hEntry, hMode, hRoot]

/-- Claim C9 at the chain `0 ← 1 ← 2`: with root index 1 the entry at 2 is top
level. -/
theorem data_isTopLevel_witness :
    (data (sampleServices AssetEntryType.Source [] none [] lookupMiss)
      (SetRootIndex sampleModel (some 1)) (some 2) Role.IsTopLevel).value
      = QVariant.bool (decide (QModelIndex.parent
          (sampleServices AssetEntryType.Source [] none [] lookupMiss) (some 2) = some 1)) :=
  (data_isTopLevel (sampleServices AssetEntryType.Source [] none [] lookupMiss) sampleModel
    (some 2) (sampleEntry AssetEntryType.Source) (by simp [sampleServices])).2.1 (some 1) rfl rfl

/-! ## Missing entries -/

/-- Claim C10: when no asset entry can be fetched for the index, `data(index, role)`
is the empty variant for every role, and it makes no request: no provider is
consulted and the base model is not asked. -/
theorem data_missing_entry (sv : Services) (self : AssetBrowserThumbnailViewProxyModel)
    (index : QModelIndex) (role : Role)
    (hEntry : sv.entryOf index = none) :
    data sv self index role = { value := QVariant.invalid, calls := [] } := by
  simp [data, hEntry]

/-- Claim C10 at an index without entry, for a role the switch does not handle. -/
theorem data_missing_entry_witness :
    data (sampleServices AssetEntryType.Source [some 1]
        (some { state := ThumbnailState.Ready, pixmap := { id := 9 } }) [] lookupMiss)
      sampleModel (some 0) (Role.other 7) = { value := QVariant.invalid, calls := [] } :=
  data_missing_entry _ sampleModel (some 0) (Role.other 7) (by simp [sampleServices])

end AssetBrowser
end AzToolsFramework
